import Mathlib

/-!
Shallow embedding of the social-feed backend (FastAPI + SQLAlchemy, files
`models.py`, `schemas.py`, `main.py`).  The relational store is modelled as
lists of rows; each handler is a pure function from the database state (plus
the request parameters, the write-time clock value, and the randomness that
the identifier generator consumes) to either an error envelope or a result
together with the committed database state.  Timestamps are natural numbers.
-/

namespace SocialFeed

/-- A row of the `posts` table (`models.py`, class `Post`).  `likes` is an
`Int` because the underlying column is a plain SQL `Integer`; non-negativity
is a property to be proved, not assumed. -/
structure Post where
  id : String
  username : String
  content : String
  createdAt : Nat
  updatedAt : Nat
  likes : Int
deriving Repr, DecidableEq

/-- A row of the `comments` table (`models.py`, class `Comment`). -/
structure Comment where
  id : String
  postId : String
  username : String
  content : String
  createdAt : Nat
  updatedAt : Nat
deriving Repr, DecidableEq

/-- A row of the `likes` table (`models.py`, class `Like`); `id` is the
autoincrement integer primary key. -/
structure Like where
  id : Nat
  postId : String
  username : String
  createdAt : Nat
deriving Repr, DecidableEq

/-- The database state: the three tables plus the autoincrement counter
backing `Like.id`. -/
structure DB where
  posts : List Post
  comments : List Comment
  likes : List Like
  nextLikeId : Nat
deriving Repr, DecidableEq

/-- The error envelope produced by `error_response` / `HTTPException`
(`main.py`): HTTP status plus `{code, message}`. -/
structure ApiError where
  status : Nat
  code : String
  message : String
deriving Repr, DecidableEq

def postNotFound : ApiError := ⟨404, "NOT_FOUND", "Post not found"⟩

def commentNotFound : ApiError := ⟨404, "NOT_FOUND", "Comment not found"⟩

def invalidFields : ApiError :=
  ⟨400, "BAD_REQUEST", "Invalid input for required fields."⟩

def invalidUsername : ApiError :=
  ⟨400, "BAD_REQUEST", "Invalid input for required field \x27username\x27."⟩

/-- Unclassified persistence failure: `except Exception` → 500 SERVER_ERROR
(the message in the source is `str(e)`; its exact text is irrelevant to the
properties proved here). -/
def serverError : ApiError := ⟨500, "SERVER_ERROR", "database error"⟩

/- ===== Identifier generator (`models.py`, `generate_id`) ===== -/

/-- `string.ascii_letters + string.digits + "_-"`: the alphabet
`secrets.choice` draws from. -/
def idAlphabet : String :=
  "abcdefghijklmnopqrstuvwxyzABCDEFGHIJKLMNOPQRSTUVWXYZ0123456789_-"

/-- `secrets.choice(chars)`: a uniformly random element of `chars`, modelled
by consuming one number from an external entropy source and reducing it
modulo the alphabet size. -/
def secretsChoice (chars : String) (entropy : Nat) : Char :=
  chars.data.getD (entropy % chars.length) 'a'

/-- `generate_id(prefix)`: `f"{prefix}_{random_part}"` where `random_part`
joins 8 characters drawn by `secrets.choice` from `idAlphabet`.  The
randomness is the function `entropy` supplying one number per draw. -/
def generate_id (pfx : String) (entropy : Nat → Nat) : String :=
  pfx ++ "_" ++ String.mk ((List.range 8).map (fun i => secretsChoice idAlphabet (entropy i)))

/-- The identifier pattern of `schemas.py`: `^[A-Za-z0-9_-]+$` (one or more
ASCII letters, digits, underscore, hyphen). -/
def isIdentChar (c : Char) : Bool :=
  c.isUpper || c.isLower || c.isDigit || c == '_' || c == '-'

def matchesIdPattern (s : String) : Bool :=
  decide (0 < s.length) && s.data.all isIdentChar

/- ===== Row lookups (`db.query(...).filter(...).first()`) ===== -/

/-- `db.query(Post).filter(Post.id == postId).first()`. -/
def findPost (db : DB) (postId : String) : Option Post :=
  db.posts.find? (fun p => p.id == postId)

/-- `db.query(Comment).filter(Comment.id == commentId, Comment.postId == postId).first()`:
the comment is looked up by the conjunction of its own id and the path's post id. -/
def findComment (db : DB) (postId commentId : String) : Option Comment :=
  db.comments.find? (fun c => c.id == commentId && c.postId == postId)

/-- `db.query(Like).filter(Like.postId == postId, Like.username == username).first()`. -/
def findLike (likes : List Like) (postId username : String) : Option Like :=
  likes.find? (fun l => l.postId == postId && l.username == username)

/-- In-place mutation of the row object returned by `.first()`: rewrite the
first list element satisfying `pred` with `f`. -/
def updateFirst (pred : α → Bool) (f : α → α) : List α → List α
  | [] => []
  | a :: rest => if pred a then f a :: rest else a :: updateFirst pred f rest

/- ===== Post handlers (`main.py`) ===== -/

/-- `create_post` (`main.py` 119–142).  `newId` stands for the value
`generate_id("p")` produced for the row's primary-key default and `now` for
`datetime.utcnow()`.  A primary-key collision on commit is an unclassified
persistence failure (500). -/
def create_post (username content newId : String) (now : Nat) (db : DB) :
    Except ApiError (Post × DB) :=
  if username.isEmpty || content.isEmpty then
    .error invalidFields
  else if db.posts.any (fun p => p.id == newId) then
    .error serverError
  else
    let post : Post :=
      { id := newId, username := username, content := content,
        createdAt := now, updatedAt := now, likes := 0 }
    .ok (post, { db with posts := db.posts ++ [post] })

/-- `get_post` (`main.py` 145–154). -/
def get_post (db : DB) (postId : String) : Except ApiError Post :=
  match findPost db postId with
  | none => .error postNotFound
  | some p => .ok p

/-- `update_post` (`main.py` 157–185): overwrite `username`, `content` and
`updatedAt` of the found row. -/
def update_post (postId username content : String) (now : Nat) (db : DB) :
    Except ApiError (Post × DB) :=
  match findPost db postId with
  | none => .error postNotFound
  | some post =>
    if username.isEmpty || content.isEmpty then
      .error invalidFields
    else
      let upd := fun (p : Post) =>
        { p with username := username, content := content, updatedAt := now }
      .ok (upd post,
        { db with posts := updateFirst (fun p => p.id == postId) upd db.posts })

/-- `delete_post` (`main.py` 188–207).  The ORM delete emits
`DELETE FROM posts WHERE id = postId`; the `cascade="all, delete-orphan"`
relationships (`models.py` 26–27) also remove every comment and like row
whose `postId` references the deleted post. -/
def delete_post (postId : String) (db : DB) : Except ApiError DB :=
  match findPost db postId with
  | none => .error postNotFound
  | some _ =>
    .ok
      { db with
        posts := db.posts.filter (fun p => !(p.id == postId)),
        comments := db.comments.filter (fun c => !(c.postId == postId)),
        likes := db.likes.filter (fun l => !(l.postId == postId)) }

/- ===== Comment handlers (`main.py`) ===== -/

/-- `create_comment` (`main.py` 232–263). -/
def create_comment (postId username content newId : String) (now : Nat) (db : DB) :
    Except ApiError (Comment × DB) :=
  match findPost db postId with
  | none => .error postNotFound
  | some _ =>
    if username.isEmpty || content.isEmpty then
      .error invalidFields
    else if db.comments.any (fun c => c.id == newId) then
      .error serverError
    else
      let c : Comment :=
        { id := newId, postId := postId, username := username, content := content,
          createdAt := now, updatedAt := now }
      .ok (c, { db with comments := db.comments ++ [c] })

/-- `get_comment` (`main.py` 266–278). -/
def get_comment (db : DB) (postId commentId : String) : Except ApiError Comment :=
  match findComment db postId commentId with
  | none => .error commentNotFound
  | some c => .ok c

/-- `update_comment` (`main.py` 281–312). -/
def update_comment (postId commentId username content : String) (now : Nat) (db : DB) :
    Except ApiError (Comment × DB) :=
  match findComment db postId commentId with
  | none => .error commentNotFound
  | some comment =>
    if username.isEmpty || content.isEmpty then
      .error invalidFields
    else
      let upd := fun (c : Comment) =>
        { c with username := username, content := content, updatedAt := now }
      .ok (upd comment,
        { db with
          comments :=
            updateFirst (fun c => c.id == commentId && c.postId == postId) upd db.comments })

/-- `delete_comment` (`main.py` 315–337): delete the row object found by the
(id, postId) lookup, i.e. erase the first matching row. -/
def delete_comment (postId commentId : String) (db : DB) : Except ApiError DB :=
  match findComment db postId commentId with
  | none => .error commentNotFound
  | some _ =>
    .ok
      { db with
        comments := db.comments.eraseP (fun c => c.id == commentId && c.postId == postId) }

/- ===== Like handlers (`main.py`) ===== -/

/-- `like_post` (`main.py` 342–387), with the snapshot the `existing_like`
query reads (`checkLikes`) passed separately from the table state at commit
time (`db.likes`): sequentially the two coincide (`like_post` below), and a
concurrent race is the case where `checkLikes` is a stale snapshot.  When the
pre-check finds no like but the table already holds one, the `INSERT` hits
the `unique_post_user_like` constraint, the `IntegrityError` branch rolls
back, refreshes the post and returns it unchanged.  On a successful insert
the counter write `post.likes += 1` also refreshes `updatedAt` through the
column's `onupdate` hook (`models.py` 23). -/
def like_post_core (postId username : String) (now : Nat) (checkLikes : List Like)
    (db : DB) : Except ApiError (Post × DB) :=
  match findPost db postId with
  | none => .error postNotFound
  | some post =>
    if username.isEmpty then
      .error invalidUsername
    else
      match findLike checkLikes postId username with
      | some _ => .ok (post, db)
      | none =>
        if (findLike db.likes postId username).isSome then
          .ok (post, db)
        else
          let upd := fun (p : Post) => { p with likes := p.likes + 1, updatedAt := now }
          let newLike : Like :=
            { id := db.nextLikeId, postId := postId, username := username, createdAt := now }
          .ok (upd post,
            { db with
              posts := updateFirst (fun p => p.id == postId) upd db.posts,
              likes := db.likes ++ [newLike],
              nextLikeId := db.nextLikeId + 1 })

/-- `like_post` in the sequential (single-request) case: the existence check
reads the current table. -/
def like_post (postId username : String) (now : Nat) (db : DB) :
    Except ApiError (Post × DB) :=
  like_post_core postId username now db.likes db

/-- `unlike_post` (`main.py` 390–425): delete the like row found by the
(postId, username) lookup, clamp the counter at 0; the counter write
refreshes `updatedAt` through the `onupdate` hook.  Absence of the row is a
silent no-op. -/
def unlike_post (postId username : String) (now : Nat) (db : DB) :
    Except ApiError (Post × DB) :=
  match findPost db postId with
  | none => .error postNotFound
  | some post =>
    if username.isEmpty then
      .error invalidUsername
    else
      match findLike db.likes postId username with
      | none => .ok (post, db)
      | some _ =>
        let upd := fun (p : Post) => { p with likes := max 0 (p.likes - 1), updatedAt := now }
        .ok (upd post,
          { db with
            posts := updateFirst (fun p => p.id == postId) upd db.posts,
            likes := db.likes.eraseP (fun l => l.postId == postId && l.username == username) })

/- ===== Operation sequences and reachability ===== -/

/-- One mutating API call, with the server-side nondeterminism (fresh id,
clock reading) recorded as data. -/
inductive Op where
  | createPost (username content newId : String) (now : Nat)
  | updatePost (postId username content : String) (now : Nat)
  | deletePost (postId : String)
  | createComment (postId username content newId : String) (now : Nat)
  | updateComment (postId commentId username content : String) (now : Nat)
  | deleteComment (postId commentId : String)
  | like (postId username : String) (now : Nat)
  | unlike (postId username : String) (now : Nat)
deriving Repr, DecidableEq

/-- Database state after one call: the committed state on success, the
rolled-back (unchanged) state on any error. -/
def applyOp (db : DB) : Op → DB
  | .createPost u c i t =>
    match create_post u c i t db with
    | .ok (_, db2) => db2
    | .error _ => db
  | .updatePost pid u c t =>
    match update_post pid u c t db with
    | .ok (_, db2) => db2
    | .error _ => db
  | .deletePost pid =>
    match delete_post pid db with
    | .ok db2 => db2
    | .error _ => db
  | .createComment pid u c i t =>
    match create_comment pid u c i t db with
    | .ok (_, db2) => db2
    | .error _ => db
  | .updateComment pid cid u c t =>
    match update_comment pid cid u c t db with
    | .ok (_, db2) => db2
    | .error _ => db
  | .deleteComment pid cid =>
    match delete_comment pid cid db with
    | .ok db2 => db2
    | .error _ => db
  | .like pid u t =>
    match like_post pid u t db with
    | .ok (_, db2) => db2
    | .error _ => db
  | .unlike pid u t =>
    match unlike_post pid u t db with
    | .ok (_, db2) => db2
    | .error _ => db

def applyOps (db : DB) (ops : List Op) : DB := ops.foldl applyOp db

/-- The store as initialised by `init_db()`: empty tables. -/
def emptyDB : DB := { posts := [], comments := [], likes := [], nextLikeId := 1 }

/-- Number of like rows for a post: the cardinality of its Like-set. -/
def likeCount (db : DB) (postId : String) : Nat :=
  (db.likes.filter (fun l => l.postId == postId)).length

/-- Recogniser for the like/unlike operations targeting a given post, used to
state properties of pure like/unlike sequences. -/
def isLikeOpFor (postId : String) : Op → Bool
  | .like pid _ _ => pid == postId
  | .unlike pid _ _ => pid == postId
  | _ => false

/- ===== Concrete fixtures for witnesses ===== -/

def wPost : Post :=
  { id := "p_1", username := "alice", content := "hi", createdAt := 0, updatedAt := 0, likes := 0 }

def wPost2 : Post :=
  { id := "p_2", username := "amy", content := "yo", createdAt := 0, updatedAt := 0, likes := 0 }

def wPostLiked : Post :=
  { id := "p_1", username := "alice", content := "hi", createdAt := 0, updatedAt := 0, likes := 1 }

def wLike : Like := { id := 1, postId := "p_1", username := "bob", createdAt := 0 }

def wComment : Comment :=
  { id := "c_1", postId := "p_1", username := "bob", content := "nice",
    createdAt := 0, updatedAt := 0 }

def wCommentOther : Comment :=
  { id := "c_1", postId := "p_2", username := "bob", content := "nice",
    createdAt := 0, updatedAt := 0 }

def wDB : DB := { posts := [wPost], comments := [], likes := [], nextLikeId := 1 }

def wDBLiked : DB := { posts := [wPostLiked], comments := [], likes := [wLike], nextLikeId := 2 }

def wDBFull : DB :=
  { posts := [wPostLiked, wPost2], comments := [wComment], likes := [wLike], nextLikeId := 2 }

def wDB9 : DB := { posts := [wPost, wPost2], comments := [wCommentOther], likes := [], nextLikeId := 1 }

/- ===== Helper lemmas ===== -/

theorem find?_updateFirst {α} (pred : α → Bool) (f : α → α) (l : List α) (x : α)
    (hx : l.find? pred = some x) (hf : ∀ a, pred a = true → pred (f a) = true) :
    (updateFirst pred f l).find? pred = some (f x) := by
  induction l with
  | nil => simp [List.find?] at hx
  | cons a rest ih =>
    by_cases ha : pred a = true
    · rw [List.find?_cons_of_pos _ ha] at hx
      cases hx
      simp only [updateFirst, if_pos ha]
      exact List.find?_cons_of_pos _ (hf _ ha)
    · rw [List.find?_cons_of_neg _ (by simpa using ha)] at hx
      simp only [updateFirst, if_neg ha]
      rw [List.find?_cons_of_neg _ (by simpa using ha)]
      exact ih hx

theorem mem_updateFirst {α} (pred : α → Bool) (f : α → α) (l : List α) (x : α)
    (hx : x ∈ updateFirst pred f l) : x ∈ l ∨ ∃ a ∈ l, x = f a := by
  induction l with
  | nil => simp [updateFirst] at hx
  | cons a rest ih =>
    by_cases ha : pred a = true
    · simp only [updateFirst, if_pos ha] at hx
      rcases List.mem_cons.mp hx with h | h
      · exact Or.inr ⟨a, List.mem_cons_self a rest, h⟩
      · exact Or.inl (List.mem_cons_of_mem a h)
    · simp only [updateFirst, if_neg ha] at hx
      rcases List.mem_cons.mp hx with h | h
      · exact Or.inl (h ▸ List.mem_cons_self a rest)
      · rcases ih h with h2 | ⟨b, hb, hxb⟩
        · exact Or.inl (List.mem_cons_of_mem a h2)
        · exact Or.inr ⟨b, List.mem_cons_of_mem a hb, hxb⟩

/-- Erasing the first row matching `q` removes exactly one row from any
filter whose predicate `p` is implied by `q`. -/
theorem length_filter_eraseP {α} (p q : α → Bool) (l : List α) (x : α)
    (hq : l.find? q = some x) (himp : ∀ a, q a = true → p a = true) :
    ((l.eraseP q).filter p).length + 1 = (l.filter p).length := by
  induction l with
  | nil => simp [List.find?] at hq
  | cons a rest ih =>
    by_cases ha : q a = true
    · rw [List.eraseP_cons_of_pos ha]
      simp [List.filter_cons, himp a ha]
    · rw [List.find?_cons_of_neg _ (by simpa using ha)] at hq
      rw [List.eraseP_cons_of_neg (by simpa using ha)]
      have hih := ih hq
      cases hpa : p a with
      | true => simp only [List.filter_cons, hpa, if_true, List.length_cons]; omega
      | false => simp only [List.filter_cons, hpa, Bool.false_eq_true, if_false]; omega

theorem findPost_mem {db : DB} {postId : String} {p : Post}
    (h : findPost db postId = some p) : p ∈ db.posts ∧ p.id = postId := by
  have hm := List.mem_of_find?_eq_some h
  have hp := List.find?_some h
  exact ⟨hm, by simpa using hp⟩

theorem findLike_mem {likes : List Like} {postId username : String} {l : Like}
    (h : findLike likes postId username = some l) :
    l ∈ likes ∧ l.postId = postId ∧ l.username = username := by
  have hm := List.mem_of_find?_eq_some h
  have hp := List.find?_some h
  simp only [Bool.and_eq_true, beq_iff_eq] at hp
  exact ⟨hm, hp⟩

/-- Exhaustive case analysis of `like_post` on a database holding the target
post: empty-username rejection, no-op on an existing like, or insert plus
counter increment. -/
theorem like_post_cases (db : DB) (postId username : String) (now : Nat) (p : Post)
    (hfound : findPost db postId = some p) :
    (username.isEmpty = true ∧
      like_post postId username now db = .error invalidUsername) ∨
    ((∃ l, findLike db.likes postId username = some l) ∧
      like_post postId username now db = .ok (p, db)) ∨
    (findLike db.likes postId username = none ∧
      like_post postId username now db =
        .ok ({ p with likes := p.likes + 1, updatedAt := now },
          { db with
            posts := updateFirst (fun q => q.id == postId)
              (fun q => { q with likes := q.likes + 1, updatedAt := now }) db.posts,
            likes := db.likes ++
              [{ id := db.nextLikeId, postId := postId, username := username,
                 createdAt := now }],
            nextLikeId := db.nextLikeId + 1 })) := by
  by_cases hie : username.isEmpty = true
  · refine Or.inl ⟨hie, ?_⟩
    simp only [like_post, like_post_core, hfound, hie, if_true]
  · cases hfl : findLike db.likes postId username with
    | some l =>
      refine Or.inr (Or.inl ⟨⟨l, rfl⟩, ?_⟩)
      simp only [like_post, like_post_core, hfound, if_neg hie, hfl]
    | none =>
      refine Or.inr (Or.inr ⟨rfl, ?_⟩)
      simp only [like_post, like_post_core, hfound, if_neg hie, hfl, Option.isSome_none,
        Bool.false_eq_true, if_false]

/-- Exhaustive case analysis of `unlike_post` on a database holding the
target post: empty-username rejection, no-op on an absent like, or row
deletion plus clamped decrement. -/
theorem unlike_post_cases (db : DB) (postId username : String) (now : Nat) (p : Post)
    (hfound : findPost db postId = some p) :
    (username.isEmpty = true ∧
      unlike_post postId username now db = .error invalidUsername) ∨
    (findLike db.likes postId username = none ∧
      unlike_post postId username now db = .ok (p, db)) ∨
    ((∃ l, findLike db.likes postId username = some l) ∧
      unlike_post postId username now db =
        .ok ({ p with likes := max 0 (p.likes - 1), updatedAt := now },
          { db with
            posts := updateFirst (fun q => q.id == postId)
              (fun q => { q with likes := max 0 (q.likes - 1), updatedAt := now }) db.posts,
            likes := db.likes.eraseP
              (fun l => l.postId == postId && l.username == username) })) := by
  by_cases hie : username.isEmpty = true
  · refine Or.inl ⟨hie, ?_⟩
    simp only [unlike_post, hfound, hie, if_true]
  · cases hfl : findLike db.likes postId username with
    | some l =>
      refine Or.inr (Or.inr ⟨⟨l, rfl⟩, ?_⟩)
      simp only [unlike_post, hfound, if_neg hie, hfl]
    | none =>
      refine Or.inr (Or.inl ⟨rfl, ?_⟩)
      simp only [unlike_post, hfound, if_neg hie, hfl]

/-- After appending a like row for (postId, username), the membership lookup
for that pair cannot come back empty. -/
theorem findLike_append_self (likes : List Like) (postId username : String) (i t : Nat) :
    findLike (likes ++ [⟨i, postId, username, t⟩]) postId username ≠ none := by
  intro h
  have h3 := List.find?_eq_none.mp h
  have hmem : (⟨i, postId, username, t⟩ : Like) ∈ likes ++ [⟨i, postId, username, t⟩] :=
    List.mem_append_right _ (List.mem_cons_self _ _)
  have := h3 _ hmem
  simp at this

/-- A filter that removed every row satisfying `p` leaves nothing for a
lookup whose predicate `q` implies `p`. -/
theorem find?_filter_not {α} (p q : α → Bool) (l : List α)
    (himp : ∀ a, q a = true → p a = true) :
    (l.filter (fun a => !(p a))).find? q = none := by
  apply List.find?_eq_none.mpr
  intro x hx hq
  have h2 := (List.mem_filter.mp hx).2
  rw [himp x hq] at h2
  simp at h2

/-- A filter that removed every row satisfying `p` leaves an empty filter
for any predicate `q` implying `p`. -/
theorem filter_filter_not {α} (p q : α → Bool) (l : List α)
    (himp : ∀ a, q a = true → p a = true) :
    (l.filter (fun a => !(p a))).filter q = [] := by
  apply List.filter_eq_nil_iff.mpr
  intro a ha hq
  have h2 := (List.mem_filter.mp ha).2
  rw [himp a hq] at h2
  simp at h2

/-- Every character `secrets.choice` draws from the alphabet is in the
`[A-Za-z0-9_-]` class. -/
theorem isIdentChar_secretsChoice (n : Nat) :
    isIdentChar (secretsChoice idAlphabet n) = true := by
  have hall : ∀ c ∈ idAlphabet.data, isIdentChar c = true := by decide
  have hlt : n % idAlphabet.length < idAlphabet.data.length :=
    Nat.mod_lt _ (by decide)
  unfold secretsChoice
  rw [List.getD_eq_getElem _ _ hlt]
  exact hall _ (List.getElem_mem hlt)

/-- `^[A-Za-z0-9_-]+$` is stable under appending more characters of the
class. -/
theorem matchesIdPattern_append (s t : String)
    (hs : matchesIdPattern s = true) (ht : t.data.all isIdentChar = true) :
    matchesIdPattern (s ++ t) = true := by
  simp only [matchesIdPattern, Bool.and_eq_true, decide_eq_true_eq] at hs ⊢
  refine ⟨?_, ?_⟩
  · have h1 := hs.1
    rw [String.length_append]
    omega
  · rw [String.data_append, List.all_append]
    simp only [Bool.and_eq_true]
    exact ⟨hs.2, ht⟩

/- ===== Shape lemmas for the posts table under each operation ===== -/

theorem create_post_ok {username content newId : String} {now : Nat} {db : DB}
    {p2 : Post} {db2 : DB}
    (h : create_post username content newId now db = .ok (p2, db2)) :
    p2.likes = 0 ∧ db2.posts = db.posts ++ [p2] := by
  unfold create_post at h
  split at h
  · simp at h
  · split at h
    · simp at h
    · simp only [Except.ok.injEq, Prod.mk.injEq] at h
      obtain ⟨h1, h2⟩ := h
      subst h1
      subst h2
      exact ⟨rfl, rfl⟩

theorem update_post_ok {postId username content : String} {now : Nat} {db : DB}
    {p2 : Post} {db2 : DB}
    (h : update_post postId username content now db = .ok (p2, db2)) :
    db2.posts = updateFirst (fun q => q.id == postId)
      (fun q => ⟨q.id, username, content, q.createdAt, now, q.likes⟩) db.posts := by
  unfold update_post at h
  split at h
  · simp at h
  · split at h
    · simp at h
    · simp only [Except.ok.injEq, Prod.mk.injEq] at h
      obtain ⟨_, h2⟩ := h
      subst h2
      rfl

theorem delete_post_ok {postId : String} {db : DB} {db2 : DB}
    (h : delete_post postId db = .ok db2) :
    db2.posts = db.posts.filter (fun q => !(q.id == postId)) := by
  unfold delete_post at h
  split at h
  · simp at h
  · simp only [Except.ok.injEq] at h
    subst h
    rfl

theorem create_comment_ok {postId username content newId : String} {now : Nat} {db : DB}
    {c2 : Comment} {db2 : DB}
    (h : create_comment postId username content newId now db = .ok (c2, db2)) :
    db2.posts = db.posts ∧ db2.likes = db.likes := by
  unfold create_comment at h
  split at h
  · simp at h
  · split at h
    · simp at h
    · split at h
      · simp at h
      · simp only [Except.ok.injEq, Prod.mk.injEq] at h
        obtain ⟨_, h2⟩ := h
        subst h2
        exact ⟨rfl, rfl⟩

theorem update_comment_ok {postId commentId username content : String} {now : Nat} {db : DB}
    {c2 : Comment} {db2 : DB}
    (h : update_comment postId commentId username content now db = .ok (c2, db2)) :
    db2.posts = db.posts ∧ db2.likes = db.likes := by
  unfold update_comment at h
  split at h
  · simp at h
  · split at h
    · simp at h
    · simp only [Except.ok.injEq, Prod.mk.injEq] at h
      obtain ⟨_, h2⟩ := h
      subst h2
      exact ⟨rfl, rfl⟩

theorem delete_comment_ok {postId commentId : String} {db : DB} {db2 : DB}
    (h : delete_comment postId commentId db = .ok db2) :
    db2.posts = db.posts ∧ db2.likes = db.likes := by
  unfold delete_comment at h
  split at h
  · simp at h
  · simp only [Except.ok.injEq] at h
    subst h
    exact ⟨rfl, rfl⟩

theorem like_post_posts {postId username : String} {now : Nat} {db : DB}
    {p2 : Post} {db2 : DB}
    (h : like_post postId username now db = .ok (p2, db2)) :
    db2.posts = db.posts ∨
      db2.posts = updateFirst (fun q => q.id == postId)
        (fun q => ⟨q.id, q.username, q.content, q.createdAt, now, q.likes + 1⟩) db.posts := by
  unfold like_post like_post_core at h
  split at h
  · simp at h
  · split at h
    · simp at h
    · split at h
      · simp only [Except.ok.injEq, Prod.mk.injEq] at h
        obtain ⟨_, h2⟩ := h
        subst h2
        exact Or.inl rfl
      · split at h
        · simp only [Except.ok.injEq, Prod.mk.injEq] at h
          obtain ⟨_, h2⟩ := h
          subst h2
          exact Or.inl rfl
        · simp only [Except.ok.injEq, Prod.mk.injEq] at h
          obtain ⟨_, h2⟩ := h
          subst h2
          exact Or.inr rfl

theorem unlike_post_posts {postId username : String} {now : Nat} {db : DB}
    {p2 : Post} {db2 : DB}
    (h : unlike_post postId username now db = .ok (p2, db2)) :
    db2.posts = db.posts ∨
      db2.posts = updateFirst (fun q => q.id == postId)
        (fun q => ⟨q.id, q.username, q.content, q.createdAt, now, max 0 (q.likes - 1)⟩)
        db.posts := by
  unfold unlike_post at h
  split at h
  · simp at h
  · split at h
    · simp at h
    · split at h
      · simp only [Except.ok.injEq, Prod.mk.injEq] at h
        obtain ⟨_, h2⟩ := h
        subst h2
        exact Or.inl rfl
      · simp only [Except.ok.injEq, Prod.mk.injEq] at h
        obtain ⟨_, h2⟩ := h
        subst h2
        exact Or.inr rfl

/-- One API call preserves non-negativity of every post's likes counter. -/
theorem applyOp_nonneg (db : DB) (op : Op) (hdb : ∀ q ∈ db.posts, 0 ≤ q.likes) :
    ∀ q ∈ (applyOp db op).posts, 0 ≤ q.likes := by
  intro q hq
  cases op with
  | createPost u c i t =>
    revert hq
    simp only [applyOp]
    cases hcp : create_post u c i t db with
    | error e => exact hdb q
    | ok r =>
      obtain ⟨p2, db2⟩ := r
      intro hq
      obtain ⟨hl0, hposts⟩ := create_post_ok hcp
      rw [hposts] at hq
      rcases List.mem_append.mp hq with h | h
      · exact hdb q h
      · rw [List.mem_singleton] at h
        subst h
        rw [hl0]
  | updatePost pid u c t =>
    revert hq
    simp only [applyOp]
    cases hcp : update_post pid u c t db with
    | error e => exact hdb q
    | ok r =>
      obtain ⟨p2, db2⟩ := r
      intro hq
      rw [update_post_ok hcp] at hq
      rcases mem_updateFirst _ _ _ _ hq with h | ⟨r0, hr0, hqr⟩
      · exact hdb q h
      · subst hqr
        exact hdb r0 hr0
  | deletePost pid =>
    revert hq
    simp only [applyOp]
    cases hcp : delete_post pid db with
    | error e => exact hdb q
    | ok db2 =>
      intro hq
      rw [delete_post_ok hcp] at hq
      exact hdb q (List.mem_filter.mp hq).1
  | createComment pid u c i t =>
    revert hq
    simp only [applyOp]
    cases hcp : create_comment pid u c i t db with
    | error e => exact hdb q
    | ok r =>
      obtain ⟨c2, db2⟩ := r
      intro hq
      rw [(create_comment_ok hcp).1] at hq
      exact hdb q hq
  | updateComment pid cid u c t =>
    revert hq
    simp only [applyOp]
    cases hcp : update_comment pid cid u c t db with
    | error e => exact hdb q
    | ok r =>
      obtain ⟨c2, db2⟩ := r
      intro hq
      rw [(update_comment_ok hcp).1] at hq
      exact hdb q hq
  | deleteComment pid cid =>
    revert hq
    simp only [applyOp]
    cases hcp : delete_comment pid cid db with
    | error e => exact hdb q
    | ok db2 =>
      intro hq
      rw [(delete_comment_ok hcp).1] at hq
      exact hdb q hq
  | like pid u t =>
    revert hq
    simp only [applyOp]
    cases hcp : like_post pid u t db with
    | error e => exact hdb q
    | ok r =>
      obtain ⟨p2, db2⟩ := r
      intro hq
      rcases like_post_posts hcp with hsame | hupd
      · rw [hsame] at hq
        exact hdb q hq
      · rw [hupd] at hq
        rcases mem_updateFirst _ _ _ _ hq with h | ⟨r0, hr0, hqr⟩
        · exact hdb q h
        · subst hqr
          have := hdb r0 hr0
          show (0 : Int) ≤ r0.likes + 1
          omega
  | unlike pid u t =>
    revert hq
    simp only [applyOp]
    cases hcp : unlike_post pid u t db with
    | error e => exact hdb q
    | ok r =>
      obtain ⟨p2, db2⟩ := r
      intro hq
      rcases unlike_post_posts hcp with hsame | hupd
      · rw [hsame] at hq
        exact hdb q hq
      · rw [hupd] at hq
        rcases mem_updateFirst _ _ _ _ hq with h | ⟨r0, hr0, hqr⟩
        · exact hdb q h
        · subst hqr
          exact le_max_left 0 _

/- ===== Claim theorems ===== -/

/-- C4: creating a post with empty `username` or empty `content` fails with
400 BAD_REQUEST and the message "Invalid input for required fields.",
regardless of the other field, and no post is created (the state is rolled
back unchanged). -/
theorem create_post_empty_rejected (username content newId : String) (now : Nat) (db : DB)
    (h : username = "" ∨ content = "") :
    create_post username content newId now db = .error invalidFields ∧
    invalidFields.status = 400 ∧ invalidFields.code = "BAD_REQUEST" ∧
    invalidFields.message = "Invalid input for required fields." ∧
    applyOp db (.createPost username content newId now) = db := by
  have hcond : (username.isEmpty || content.isEmpty) = true := by
    rcases h with h | h <;> subst h <;>
      simp [Bool.or_eq_true, String.isEmpty_iff]
  have h1 : create_post username content newId now db = .error invalidFields := by
    simp only [create_post, hcond, if_true]
  exact ⟨h1, rfl, rfl, rfl, by simp only [applyOp, h1]⟩

/-- C4 witness: empty username with valid content is rejected and the
database is unchanged. -/
theorem create_post_empty_rejected_witness :
    create_post "" "hello" "p_9" 3 wDB = .error invalidFields ∧
    invalidFields.status = 400 ∧ invalidFields.code = "BAD_REQUEST" ∧
    invalidFields.message = "Invalid input for required fields." ∧
    applyOp wDB (.createPost "" "hello" "p_9" 3) = wDB :=
  create_post_empty_rejected "" "hello" "p_9" 3 wDB (Or.inl rfl)

/-- C5: deleting an existing post cascades: the post, all its comments and
all its like rows are removed, so a subsequent GET of the post or of any of
its comments answers 404 and no like row for it remains. -/
theorem delete_post_cascades (db : DB) (postId : String)
    (hpost : (findPost db postId).isSome = true) :
    ∃ db2, delete_post postId db = .ok db2 ∧
      get_post db2 postId = .error postNotFound ∧
      (∀ commentId, get_comment db2 postId commentId = .error commentNotFound) ∧
      db2.comments.filter (fun c => c.postId == postId) = [] ∧
      db2.likes.filter (fun l => l.postId == postId) = [] := by
  cases hfp : findPost db postId with
  | none => rw [hfp] at hpost; simp at hpost
  | some p =>
    have heq : delete_post postId db =
        .ok ⟨db.posts.filter (fun q => !(q.id == postId)),
          db.comments.filter (fun c => !(c.postId == postId)),
          db.likes.filter (fun l => !(l.postId == postId)), db.nextLikeId⟩ := by
      simp only [delete_post, hfp]
    refine ⟨_, heq, ?_, ?_, ?_, ?_⟩
    · have hnone : (db.posts.filter (fun q => !(q.id == postId))).find?
          (fun q => q.id == postId) = none :=
        find?_filter_not _ _ _ (fun a ha => ha)
      simp only [get_post, findPost, hnone]
    · intro commentId
      have hnone : (db.comments.filter (fun c => !(c.postId == postId))).find?
          (fun c => c.id == commentId && c.postId == postId) = none :=
        find?_filter_not _ _ _ (fun a ha => by
          simp only [Bool.and_eq_true] at ha
          exact ha.2)
      simp only [get_comment, findComment, hnone]
    · exact filter_filter_not _ _ _ (fun a ha => ha)
    · exact filter_filter_not _ _ _ (fun a ha => ha)

/-- C5 witness: deleting `p_1` from the fixture with one comment and one
like on it removes everything referencing it. -/
theorem delete_post_cascades_witness :
    ∃ db2, delete_post "p_1" wDBFull = .ok db2 ∧
      get_post db2 "p_1" = .error postNotFound ∧
      (∀ commentId, get_comment db2 "p_1" commentId = .error commentNotFound) ∧
      db2.comments.filter (fun c => c.postId == "p_1") = [] ∧
      db2.likes.filter (fun l => l.postId == "p_1") = [] :=
  delete_post_cascades wDBFull "p_1" (by decide)

/-- C6: a successful PATCH of an existing post or comment writes `updatedAt`
at the time of the write — strictly later than the prior `updatedAt`
whenever the clock has advanced beyond it — and leaves `createdAt`
unchanged. -/
theorem patch_refreshes_updatedAt (db : DB) (username content : String) (now : Nat)
    (hu : username ≠ "") (hc : content ≠ "") :
    (∀ postId p, findPost db postId = some p → p.updatedAt < now →
      ∃ p2 db2, update_post postId username content now db = .ok (p2, db2) ∧
        p.updatedAt < p2.updatedAt ∧ p2.updatedAt = now ∧ p2.createdAt = p.createdAt) ∧
    (∀ postId commentId c, findComment db postId commentId = some c → c.updatedAt < now →
      ∃ c2 db2, update_comment postId commentId username content now db = .ok (c2, db2) ∧
        c.updatedAt < c2.updatedAt ∧ c2.updatedAt = now ∧ c2.createdAt = c.createdAt) := by
  have hie : ¬ username.isEmpty = true := by simpa [String.isEmpty_iff] using hu
  have hce : ¬ content.isEmpty = true := by simpa [String.isEmpty_iff] using hc
  have hcond : ¬ ((username.isEmpty || content.isEmpty) = true) := by
    simp [Bool.or_eq_true, hie, hce]
  constructor
  · intro postId p hfound ht
    refine ⟨⟨p.id, username, content, p.createdAt, now, p.likes⟩,
      ⟨updateFirst (fun q => q.id == postId)
          (fun q => ⟨q.id, username, content, q.createdAt, now, q.likes⟩) db.posts,
        db.comments, db.likes, db.nextLikeId⟩, ?_, ht, rfl, rfl⟩
    simp only [update_post, hfound, if_neg hcond]
  · intro postId commentId c hfound ht
    refine ⟨⟨c.id, c.postId, username, content, c.createdAt, now⟩,
      ⟨db.posts, updateFirst (fun q => q.id == commentId && q.postId == postId)
          (fun q => ⟨q.id, q.postId, username, content, q.createdAt, now⟩) db.comments,
        db.likes, db.nextLikeId⟩, ?_, ht, rfl, rfl⟩
    simp only [update_comment, hfound, if_neg hcond]

/-- C6 witness: patching post `p_1` and comment `c_1` at write time 5
refreshes `updatedAt` from 0 to 5 and keeps `createdAt`. -/
theorem patch_refreshes_updatedAt_witness :
    (∃ p2 db2, update_post "p_1" "al" "new" 5 wDBFull = .ok (p2, db2) ∧
      wPostLiked.updatedAt < p2.updatedAt ∧ p2.updatedAt = 5 ∧
      p2.createdAt = wPostLiked.createdAt) ∧
    (∃ c2 db2, update_comment "p_1" "c_1" "al" "new" 5 wDBFull = .ok (c2, db2) ∧
      wComment.updatedAt < c2.updatedAt ∧ c2.updatedAt = 5 ∧
      c2.createdAt = wComment.createdAt) :=
  ⟨(patch_refreshes_updatedAt wDBFull "al" "new" 5 (by decide) (by decide)).1
      "p_1" wPostLiked (by decide) (by decide),
   (patch_refreshes_updatedAt wDBFull "al" "new" 5 (by decide) (by decide)).2
      "p_1" "c_1" wComment (by decide) (by decide)⟩

/-- C8: `generate_id` returns `{prefix}_{token}` where the token is exactly
8 characters drawn from ASCII letters, digits, underscore and hyphen; in
particular every generated post id (prefix "p") and comment id (prefix "c")
matches `^[A-Za-z0-9_-]+$`. -/
theorem generate_id_shape (pfx : String) (entropy : Nat → Nat) :
    (∃ token : String, generate_id pfx entropy = pfx ++ "_" ++ token ∧
      token.length = 8 ∧ token.data.all isIdentChar = true) ∧
    matchesIdPattern (generate_id "p" entropy) = true ∧
    matchesIdPattern (generate_id "c" entropy) = true := by
  have htok : ((List.range 8).map (fun i => secretsChoice idAlphabet (entropy i))).all
      isIdentChar = true := by
    apply List.all_eq_true.mpr
    intro x hx
    obtain ⟨i, _, rfl⟩ := List.mem_map.mp hx
    exact isIdentChar_secretsChoice (entropy i)
  refine ⟨⟨String.mk ((List.range 8).map (fun i => secretsChoice idAlphabet (entropy i))),
      rfl, ?_, htok⟩, ?_, ?_⟩
  · simp [String.length]
  · exact matchesIdPattern_append ("p" ++ "_") _ (by decide) htok
  · exact matchesIdPattern_append ("c" ++ "_") _ (by decide) htok

/-- C9: comment get/update/delete look the comment up by commentId AND the
path's postId: when the comment with that id belongs to a different post
(and no comment matches both keys), all three answer 404 NOT_FOUND and the
state is unchanged, exactly as for a missing comment. -/
theorem comment_lookup_scoped (db : DB) (postId commentId username content : String)
    (now : Nat)
    (_hex : ∃ c ∈ db.comments, c.id = commentId ∧ c.postId ≠ postId)
    (hall : ∀ c ∈ db.comments, c.id = commentId → c.postId ≠ postId) :
    findComment db postId commentId = none ∧
    get_comment db postId commentId = .error commentNotFound ∧
    update_comment postId commentId username content now db = .error commentNotFound ∧
    delete_comment postId commentId db = .error commentNotFound ∧
    commentNotFound.status = 404 ∧ commentNotFound.code = "NOT_FOUND" ∧
    applyOp db (.updateComment postId commentId username content now) = db ∧
    applyOp db (.deleteComment postId commentId) = db := by
  have hnone : findComment db postId commentId = none := by
    apply List.find?_eq_none.mpr
    intro c hc
    simp only [Bool.and_eq_true, beq_iff_eq, not_and]
    intro h1 h2
    exact hall c hc h1 h2
  have hget : get_comment db postId commentId = .error commentNotFound := by
    simp only [get_comment, hnone]
  have hupd : update_comment postId commentId username content now db =
      .error commentNotFound := by
    simp only [update_comment, hnone]
  have hdel : delete_comment postId commentId db = .error commentNotFound := by
    simp only [delete_comment, hnone]
  exact ⟨hnone, hget, hupd, hdel, rfl, rfl,
    by simp only [applyOp, hupd], by simp only [applyOp, hdel]⟩

/-- C9 witness: comment `c_1` exists but belongs to `p_2`; accessed through
`p_1` it is treated as absent. -/
theorem comment_lookup_scoped_witness :
    findComment wDB9 "p_1" "c_1" = none ∧
    get_comment wDB9 "p_1" "c_1" = .error commentNotFound ∧
    update_comment "p_1" "c_1" "u" "x" 3 wDB9 = .error commentNotFound ∧
    delete_comment "p_1" "c_1" wDB9 = .error commentNotFound ∧
    commentNotFound.status = 404 ∧ commentNotFound.code = "NOT_FOUND" ∧
    applyOp wDB9 (.updateComment "p_1" "c_1" "u" "x" 3) = wDB9 ∧
    applyOp wDB9 (.deleteComment "p_1" "c_1") = wDB9 :=
  comment_lookup_scoped wDB9 "p_1" "c_1" "u" "x" 3 (by decide) (by decide)

/-- C1: for every existing post and non-empty username, liking twice yields
the same `Post.likes` (and the same state) as liking once — the second like
is a no-op returning 200 with the current post; and when the duplicate is
only detected at commit through the unique-constraint violation (the
existence pre-check read a stale snapshot with no like while the table
already holds one), the `IntegrityError` branch still returns 200 with the
current post and leaves the state unchanged. -/
theorem like_post_idempotent (db : DB) (postId username : String) (t1 t2 : Nat) (p : Post)
    (hfound : findPost db postId = some p) (hu : username ≠ "") :
    (∃ p1 db1, like_post postId username t1 db = .ok (p1, db1) ∧
       like_post postId username t2 db1 = .ok (p1, db1)) ∧
    (∀ stale : List Like, findLike stale postId username = none →
       (findLike db.likes postId username).isSome = true →
       like_post_core postId username t2 stale db = .ok (p, db)) := by
  have hie : ¬ username.isEmpty = true := by simpa [String.isEmpty_iff] using hu
  constructor
  · rcases like_post_cases db postId username t1 p hfound with
      ⟨h1, _⟩ | ⟨hex, heq⟩ | ⟨hnone, heq⟩
    · exact absurd h1 hie
    · refine ⟨p, db, heq, ?_⟩
      rcases like_post_cases db postId username t2 p hfound with
        ⟨h1, _⟩ | ⟨_, heq2⟩ | ⟨hnone2, _⟩
      · exact absurd h1 hie
      · exact heq2
      · rcases hex with ⟨l, hl⟩
        rw [hnone2] at hl
        cases hl
    · refine ⟨_, _, heq, ?_⟩
      have hfound2 :
          findPost
            { db with
              posts := updateFirst (fun q => q.id == postId)
                (fun q => { q with likes := q.likes + 1, updatedAt := t1 }) db.posts,
              likes := db.likes ++
                [{ id := db.nextLikeId, postId := postId, username := username,
                   createdAt := t1 }],
              nextLikeId := db.nextLikeId + 1 } postId =
            some { p with likes := p.likes + 1, updatedAt := t1 } :=
        find?_updateFirst _ _ _ p hfound (fun a ha => ha)
      rcases like_post_cases _ postId username t2 _ hfound2 with
        ⟨h1, _⟩ | ⟨_, heq2⟩ | ⟨hnone2, _⟩
      · exact absurd h1 hie
      · exact heq2
      · exact absurd hnone2 (findLike_append_self db.likes postId username db.nextLikeId t1)
  · intro stale hstale hsome
    simp only [like_post_core, hfound, if_neg hie, hstale, hsome, if_true]

/-- C1 witness: on a one-post database where bob already likes `p_1`, both
conjuncts of `like_post_idempotent` hold at concrete inputs. -/
theorem like_post_idempotent_witness :
    (∃ p1 db1, like_post "p_1" "bob" 1 wDBLiked = .ok (p1, db1) ∧
       like_post "p_1" "bob" 2 db1 = .ok (p1, db1)) ∧
    (∀ stale : List Like, findLike stale "p_1" "bob" = none →
       (findLike wDBLiked.likes "p_1" "bob").isSome = true →
       like_post_core "p_1" "bob" 2 stale wDBLiked = .ok (wPostLiked, wDBLiked)) :=
  like_post_idempotent wDBLiked "p_1" "bob" 1 2 wPostLiked (by decide) (by decide)

/-- C3: unliking a never-liked (postId, username) pair is a silent no-op:
the post (and its likes counter) is unchanged and the handler returns 200
with the current post state. -/
theorem unlike_never_liked_noop (db : DB) (postId username : String) (now : Nat) (p : Post)
    (hfound : findPost db postId = some p) (hu : username ≠ "")
    (hnone : findLike db.likes postId username = none) :
    unlike_post postId username now db = .ok (p, db) := by
  have hie : ¬ username.isEmpty = true := by simpa [String.isEmpty_iff] using hu
  rcases unlike_post_cases db postId username now p hfound with
    ⟨h1, _⟩ | ⟨_, h2⟩ | ⟨⟨l, hl⟩, _⟩
  · exact absurd h1 hie
  · exact h2
  · rw [hnone] at hl
    cases hl

/-- C3 witness: carol never liked `p_1`; unliking it returns the post and
database unchanged. -/
theorem unlike_never_liked_noop_witness :
    unlike_post "p_1" "carol" 7 wDBLiked = .ok (wPostLiked, wDBLiked) :=
  unlike_never_liked_noop wDBLiked "p_1" "carol" 7 wPostLiked (by decide) (by decide) (by decide)

/-- C10: a like that inserts a new row and an unlike that deletes an
existing one modify only the post's likes counter and its `updatedAt`
timestamp (refreshed to the write time by the column's `onupdate` hook);
`id`, `username`, `content` and `createdAt` are unchanged. -/
theorem like_unlike_frame (db : DB) (postId username : String) (now : Nat) (p : Post)
    (hfound : findPost db postId = some p) (hu : username ≠ "") :
    (findLike db.likes postId username = none →
      ∃ p2 db2, like_post postId username now db = .ok (p2, db2) ∧
        p2.id = p.id ∧ p2.username = p.username ∧ p2.content = p.content ∧
        p2.createdAt = p.createdAt ∧ p2.likes = p.likes + 1 ∧ p2.updatedAt = now ∧
        findPost db2 postId = some p2 ∧ db2.comments = db.comments) ∧
    ((∃ l, findLike db.likes postId username = some l) →
      ∃ p2 db2, unlike_post postId username now db = .ok (p2, db2) ∧
        p2.id = p.id ∧ p2.username = p.username ∧ p2.content = p.content ∧
        p2.createdAt = p.createdAt ∧ p2.likes = max 0 (p.likes - 1) ∧ p2.updatedAt = now ∧
        findPost db2 postId = some p2 ∧ db2.comments = db.comments) := by
  have hie : ¬ username.isEmpty = true := by simpa [String.isEmpty_iff] using hu
  constructor
  · intro hnone
    rcases like_post_cases db postId username now p hfound with
      ⟨h1, _⟩ | ⟨⟨l, hl⟩, _⟩ | ⟨_, heq⟩
    · exact absurd h1 hie
    · rw [hnone] at hl
      cases hl
    · refine ⟨_, _, heq, rfl, rfl, rfl, rfl, rfl, rfl, ?_, rfl⟩
      exact find?_updateFirst _ _ _ p hfound (fun a ha => ha)
  · intro hex
    rcases unlike_post_cases db postId username now p hfound with
      ⟨h1, _⟩ | ⟨hnone, _⟩ | ⟨_, heq⟩
    · exact absurd h1 hie
    · rcases hex with ⟨l, hl⟩
      rw [hnone] at hl
      cases hl
    · refine ⟨_, _, heq, rfl, rfl, rfl, rfl, rfl, rfl, ?_, rfl⟩
      exact find?_updateFirst _ _ _ p hfound (fun a ha => ha)

/-- C10 witness: carol's fresh like of `p_1` and bob's unlike of `p_1`, on
the database where only bob likes the post. -/
theorem like_unlike_frame_witness :
    (findLike wDBLiked.likes "p_1" "carol" = none →
      ∃ p2 db2, like_post "p_1" "carol" 9 wDBLiked = .ok (p2, db2) ∧
        p2.id = wPostLiked.id ∧ p2.username = wPostLiked.username ∧
        p2.content = wPostLiked.content ∧ p2.createdAt = wPostLiked.createdAt ∧
        p2.likes = wPostLiked.likes + 1 ∧ p2.updatedAt = 9 ∧
        findPost db2 "p_1" = some p2 ∧ db2.comments = wDBLiked.comments) ∧
    ((∃ l, findLike wDBLiked.likes "p_1" "carol" = some l) →
      ∃ p2 db2, unlike_post "p_1" "carol" 9 wDBLiked = .ok (p2, db2) ∧
        p2.id = wPostLiked.id ∧ p2.username = wPostLiked.username ∧
        p2.content = wPostLiked.content ∧ p2.createdAt = wPostLiked.createdAt ∧
        p2.likes = max 0 (wPostLiked.likes - 1) ∧ p2.updatedAt = 9 ∧
        findPost db2 "p_1" = some p2 ∧ db2.comments = wDBLiked.comments) :=
  like_unlike_frame wDBLiked "p_1" "carol" 9 wPostLiked (by decide) (by decide)

/-- Appending a like row for the post adds exactly one element to its
Like-set. -/
theorem likeCount_append_like (likes : List Like) (postId username : String) (i t : Nat) :
    ((likes ++ [(⟨i, postId, username, t⟩ : Like)]).filter (fun l => l.postId == postId)).length =
      (likes.filter (fun l => l.postId == postId)).length + 1 := by
  simp [List.filter_append]

/-- One like/unlike call on the post preserves "the post exists and its
counter equals the cardinality of its Like-set". -/
theorem likeCount_step (db : DB) (postId : String) (op : Op)
    (hop : isLikeOpFor postId op = true)
    (h : ∃ q, findPost db postId = some q ∧ q.likes = (likeCount db postId : Int)) :
    ∃ q, findPost (applyOp db op) postId = some q ∧
      q.likes = (likeCount (applyOp db op) postId : Int) := by
  obtain ⟨q, hfound, hcnt⟩ := h
  cases op with
  | createPost u c i t => simp [isLikeOpFor] at hop
  | updatePost pid u c t => simp [isLikeOpFor] at hop
  | deletePost pid => simp [isLikeOpFor] at hop
  | createComment pid u c i t => simp [isLikeOpFor] at hop
  | updateComment pid cid u c t => simp [isLikeOpFor] at hop
  | deleteComment pid cid => simp [isLikeOpFor] at hop
  | like pid u t =>
    simp only [isLikeOpFor, beq_iff_eq] at hop
    rw [hop]
    rcases like_post_cases db postId u t q hfound with
      ⟨_, heq⟩ | ⟨_, heq⟩ | ⟨_, heq⟩
    · have happ : applyOp db (Op.like postId u t) = db := by
        simp only [applyOp, heq]
      rw [happ]
      exact ⟨q, hfound, hcnt⟩
    · have happ : applyOp db (Op.like postId u t) = db := by
        simp only [applyOp, heq]
      rw [happ]
      exact ⟨q, hfound, hcnt⟩
    · have happ : applyOp db (Op.like postId u t) =
          ⟨updateFirst (fun r => r.id == postId)
              (fun r => ⟨r.id, r.username, r.content, r.createdAt, t, r.likes + 1⟩) db.posts,
            db.comments, db.likes ++ [⟨db.nextLikeId, postId, u, t⟩],
            db.nextLikeId + 1⟩ := by
        simp only [applyOp, heq]
      have hfound2 : findPost (applyOp db (Op.like postId u t)) postId =
          some ⟨q.id, q.username, q.content, q.createdAt, t, q.likes + 1⟩ := by
        rw [happ]
        exact find?_updateFirst _ _ _ q hfound (fun a ha => ha)
      have hcount2 : likeCount (applyOp db (Op.like postId u t)) postId =
          likeCount db postId + 1 := by
        rw [happ]
        exact likeCount_append_like db.likes postId u db.nextLikeId t
      refine ⟨_, hfound2, ?_⟩
      show q.likes + 1 = _
      rw [hcount2]
      push_cast
      omega
  | unlike pid u t =>
    simp only [isLikeOpFor, beq_iff_eq] at hop
    rw [hop]
    rcases unlike_post_cases db postId u t q hfound with
      ⟨_, heq⟩ | ⟨_, heq⟩ | ⟨⟨l, hl⟩, heq⟩
    · have happ : applyOp db (Op.unlike postId u t) = db := by
        simp only [applyOp, heq]
      rw [happ]
      exact ⟨q, hfound, hcnt⟩
    · have happ : applyOp db (Op.unlike postId u t) = db := by
        simp only [applyOp, heq]
      rw [happ]
      exact ⟨q, hfound, hcnt⟩
    · have happ : applyOp db (Op.unlike postId u t) =
          ⟨updateFirst (fun r => r.id == postId)
              (fun r => ⟨r.id, r.username, r.content, r.createdAt, t, max 0 (r.likes - 1)⟩)
              db.posts,
            db.comments,
            db.likes.eraseP (fun r => r.postId == postId && r.username == u),
            db.nextLikeId⟩ := by
        simp only [applyOp, heq]
      have hfound2 : findPost (applyOp db (Op.unlike postId u t)) postId =
          some ⟨q.id, q.username, q.content, q.createdAt, t, max 0 (q.likes - 1)⟩ := by
        rw [happ]
        exact find?_updateFirst _ _ _ q hfound (fun a ha => ha)
      have hcount2 : likeCount (applyOp db (Op.unlike postId u t)) postId + 1 =
          likeCount db postId := by
        rw [happ]
        exact length_filter_eraseP (fun (r : Like) => r.postId == postId)
          (fun (r : Like) => r.postId == postId && r.username == u) db.likes l hl
          (fun a ha => by
            simp only [Bool.and_eq_true] at ha
            exact ha.1)
      refine ⟨_, hfound2, ?_⟩
      show max 0 (q.likes - 1) = _
      omega

/-- The like-counter invariant is preserved along any sequence of
like/unlike calls on the post. -/
theorem likeCount_inv_foldl (postId : String) :
    ∀ ops : List Op, (∀ op ∈ ops, isLikeOpFor postId op = true) →
      ∀ db : DB,
        (∃ q, findPost db postId = some q ∧ q.likes = (likeCount db postId : Int)) →
        ∃ q, findPost (applyOps db ops) postId = some q ∧
          q.likes = (likeCount (applyOps db ops) postId : Int) := by
  intro ops
  induction ops with
  | nil =>
    intro _ db h
    simpa [applyOps] using h
  | cons op rest ih =>
    intro hops db h
    have hop := hops op (List.mem_cons_self _ _)
    have hrest := fun o ho => hops o (List.mem_cons_of_mem _ ho)
    exact ih hrest (applyOp db op) (likeCount_step db postId op hop h)

/-- C2: starting from creation (likes = 0, empty Like-set), after any finite
sequence of like/unlike operations on the post its likes counter equals the
cardinality of its current Like-set. -/
theorem likes_equals_like_set_card (db : DB) (postId : String) (p : Post) (ops : List Op)
    (hfound : findPost db postId = some p) (h0 : p.likes = 0)
    (hset : likeCount db postId = 0)
    (hops : ∀ op ∈ ops, isLikeOpFor postId op = true) :
    ∃ q, findPost (applyOps db ops) postId = some q ∧
      q.likes = (likeCount (applyOps db ops) postId : Int) := by
  refine likeCount_inv_foldl postId ops hops db ⟨p, hfound, ?_⟩
  rw [h0, hset]
  rfl

/-- C2 witness: bob likes, carol likes, bob unlikes, bob unlikes again —
after the sequence the counter equals the Like-set size. -/
theorem likes_equals_like_set_card_witness :
    ∃ q, findPost (applyOps wDB [.like "p_1" "bob" 1, .like "p_1" "carol" 2,
        .unlike "p_1" "bob" 3, .unlike "p_1" "bob" 4]) "p_1" = some q ∧
      q.likes = (likeCount (applyOps wDB [.like "p_1" "bob" 1, .like "p_1" "carol" 2,
        .unlike "p_1" "bob" 3, .unlike "p_1" "bob" 4]) "p_1" : Int) :=
  likes_equals_like_set_card wDB "p_1" wPost
    [.like "p_1" "bob" 1, .like "p_1" "carol" 2, .unlike "p_1" "bob" 3, .unlike "p_1" "bob" 4]
    (by decide) (by decide) (by decide) (by decide)

/-- C7: in every state reachable from the empty store by any sequence of
API calls, every post's likes counter is non-negative: it starts at 0 on
creation and the unlike decrement clamps at 0. -/
theorem likes_never_negative (ops : List Op) :
    ∀ p ∈ (applyOps emptyDB ops).posts, 0 ≤ p.likes := by
  suffices h : ∀ db : DB, (∀ q ∈ db.posts, 0 ≤ q.likes) →
      ∀ p ∈ (applyOps db ops).posts, 0 ≤ p.likes by
    refine h emptyDB ?_
    intro q hq
    simp [emptyDB] at hq
  induction ops with
  | nil =>
    intro db hdb
    simpa [applyOps] using hdb
  | cons op rest ih =>
    intro db hdb
    exact ih (applyOp db op) (applyOp_nonneg db op hdb)

/-- C7 witness: after creating a post, liking it and unliking it twice, the
counter of the surviving post is non-negative. -/
theorem likes_never_negative_witness :
    0 ≤ wPost2.likes :=
  likes_never_negative
    [.createPost "amy" "yo" "p_2" 0, .unlike "p_2" "bob" 1]
    wPost2 (by decide)

end SocialFeed
